import Mathlib

/-!
Verification of `shapefile_validator.py` (ncagle/Shapefile-Validator).

The core operation of the repository is `validate_zipped_shapefile(zip_path)`
(src/shapefile_validator.py, lines 300-356), which returns a pair
`(success : bool, error_msg : Optional[str])`.  We embed it shallowly:

* the filesystem and the external libraries the function consults
  (`os.path.exists`, `zipfile.is_zipfile`, `zipfile.ZipFile(...).extractall`,
  `tempfile.TemporaryDirectory`, `gpd.read_file`) are an explicit
  environment `Env`;
* the function body is translated branch for branch, producing both the
  returned verdict and the trace of caller-visible filesystem events
  (creation and recursive removal of the temporary workspace), so the
  `with tempfile.TemporaryDirectory()` construct is modelled by its
  semantics: `__exit__` (recursive removal) runs on every exit path of the
  block, normal return and exception propagation alike;
* exceptions that the body can raise past an inner handler are modelled by
  `Except`: `validate_body` is the code inside the outer `try`, and
  `validate_zipped_shapefile` adds the outer `except Exception` handler,
  which converts any escaped exception into a `(False, "Unexpected error: ...")`
  verdict;
* paths inside the extraction workspace are represented relative to the
  workspace root: every absolute path the code manipulates there has the
  workspace directory as a uniform prefix, so membership tests
  (`os.path.exists(base_path + ext)`) and suffix tests (`rglob("*.shp")`)
  agree with their absolute-path counterparts.
-/

namespace ShapefileValidator

/-- Outcome of `zipfile.ZipFile(zip_path, "r").extractall(temp_dir)`:
either it populates the workspace — `ok entries` lists every filesystem node
present under the workspace after extraction, relative to the workspace
root, in the order `Path(temp_dir).rglob` traverses them — or it raises
`zipfile.BadZipFile` (caught by the inner `except zipfile.BadZipFile`
handler at line 331), or it raises some other exception, which propagates
to the outer handler.  The outcome is a function of the archive path. -/
inductive ExtractOutcome where
  | ok (entries : List String)
  | badZipFile
  | raises (msg : String)

/-- Outcome of `gpd.read_file(shp_path)` followed by `len(gdf)`: either a
parsed feature collection with `numFeatures` features, or an exception
whose string form is `msg` (the inner `except Exception` handler at line
352 catches every exception raised by the read).  The outcome is a
function of the dataset rooted at the given workspace-relative path. -/
inductive ReadOutcome where
  | ok (numFeatures : Nat)
  | raises (msg : String)

/-- Caller-visible filesystem events performed by one validation call:
creation of the temporary workspace directory and its recursive removal. -/
inductive Event where
  | mkTempDir (dir : String)
  | rmTree (dir : String)
deriving DecidableEq, Repr

/-- The environment a validation call runs in: the answers the filesystem
and the external libraries give to the queries the code makes.
`path_exists` is `os.path.exists` on the archive path, `is_zipfile` is
`zipfile.is_zipfile`, `make_tempdir` is `tempfile.TemporaryDirectory()`
(returning the fresh directory name, or raising), `extractall` and
`read_file` are as documented on their outcome types. -/
structure Env where
  path_exists : String → Bool
  is_zipfile : String → Bool
  make_tempdir : Except String String
  extractall : String → ExtractOutcome
  read_file : String → ReadOutcome

/-- A returned verdict: the pair `(success, error_msg)`. -/
abbrev Verdict := Bool × Option String

/-- The filter implemented by `Path(temp_dir).rglob("*.shp")` (line 335):
it keeps exactly the nodes whose final path component matches the literal
pattern `*.shp` under case-sensitive `fnmatch` semantics, i.e. whose name
ends in the four characters `".shp"`.  Since `".shp"` contains no path
separator, a relative path's final component ends in `".shp"` exactly when
the whole relative path does, so we test the last four characters of the
relative path. -/
def matchesShpGlob (p : String) : Bool :=
  match p.data.reverse with
  | 'p' :: 'h' :: 's' :: '.' :: _ => true
  | _ => false

/-- The list `list(Path(temp_dir).rglob("*.shp"))`: the matching nodes in
traversal order. -/
def shpFilesOf (entries : List String) : List String :=
  entries.filter matchesShpGlob

/-- The loop at lines 342-344:
`for ext in [".shx", ".dbf"]: if not os.path.exists(base_path + ext): return False, f"Missing required shapefile component: {ext}"`.
Returns the first required extension whose sibling file is absent, in the
order the loop visits them. -/
def firstMissingComponent (entries : List String) (base_path : String) :
    List String → Option String
  | [] => none
  | ext :: exts =>
      if entries.contains (base_path ++ ext) then
        firstMissingComponent entries base_path exts
      else
        some ext

/-- The literal list `[".shx", ".dbf"]` iterated at line 342. -/
def requiredExts : List String := [".shx", ".dbf"]

/-- Lines 341-353, for the selected candidate `shp_path`: the component
presence loop, then the structural read and the feature-count check. -/
def candidateCheck (env : Env) (entries : List String) (shp_path : String) :
    Except String Verdict :=
  -- base_path = str(shp_path)[:-4]  (line 341)
  let base_path := shp_path.dropRight 4
  match firstMissingComponent entries base_path requiredExts with
  | some ext =>
      .ok (false, some ("Missing required shapefile component: " ++ ext))
  | none =>
      match env.read_file shp_path with
      | .raises msg => .ok (false, some ("Error reading shapefile: " ++ msg))
      | .ok n => if n == 0 then
            .ok (false, some "Shapefile contains no features")
          else
            .ok (true, none)

/-- Lines 335-353: locate the geometry candidates in the extracted
contents; with none, fail; otherwise continue with `shp_files[0]`. -/
def datasetOnEntries (env : Env) (entries : List String) : Except String Verdict :=
  match shpFilesOf entries with
  | [] => .ok (false, some "No .shp file found in zip archive")
  | shp_path :: _ => candidateCheck env entries shp_path

/-- The body of the `with tempfile.TemporaryDirectory() as temp_dir:` block
(lines 327-353), given the extraction outcome for the archive.  `Except.error`
is an exception escaping the block (only the extraction step can raise one
past its dedicated handler; the read step's handler catches everything). -/
def datasetStage (env : Env) (zip_path : String) : Except String Verdict :=
  match env.extractall zip_path with
  | .badZipFile => .ok (false, some "Corrupt zip file - cannot extract contents")
  | .raises msg => .error msg
  | .ok entries => datasetOnEntries env entries

/-- The `with tempfile.TemporaryDirectory() as temp_dir:` construct (line
326): create the workspace, run the block, and remove the workspace
recursively on every exit path of the block — `TemporaryDirectory.__exit__`
runs both on normal return and while an exception propagates.  If creating
the workspace itself raises, no workspace exists and the exception
propagates with no events performed. -/
def withTempBlock (env : Env) (zip_path : String) :
    Except String Verdict × List Event :=
  match env.make_tempdir with
  | .error e => (.error e, [])
  | .ok temp_dir =>
      (datasetStage env zip_path, [Event.mkTempDir temp_dir, Event.rmTree temp_dir])

/-- The code inside the outer `try:` (lines 317-353): the existence check,
the container-format check, then the workspace block. -/
def validate_body (env : Env) (zip_path : String) :
    Except String Verdict × List Event :=
  if !(env.path_exists zip_path) then
    (.ok (false, some ("File not found: " ++ zip_path)), [])
  else if !(env.is_zipfile zip_path) then
    (.ok (false, some "File is not a valid zip archive"), [])
  else
    withTempBlock env zip_path

/-- The function `validate_zipped_shapefile` (lines 300-356): the body
wrapped in the outer `except Exception` handler (lines 355-356), which
converts any exception escaping the body into a returned verdict. -/
def validate_zipped_shapefile (env : Env) (zip_path : String) :
    Verdict × List Event :=
  match validate_body env zip_path with
  | (.ok v, tr) => (v, tr)
  | (.error e, tr) => ((false, some ("Unexpected error: " ++ e)), tr)

/-- The verdict component of a call's result. -/
def verdictOf (env : Env) (zip_path : String) : Verdict :=
  (validate_zipped_shapefile env zip_path).1

/-- The event trace of a call's result. -/
def traceOf (env : Env) (zip_path : String) : List Event :=
  (validate_zipped_shapefile env zip_path).2

/-- Character-list version of "is a prefix of", used only to state and
prove that the distinct diagnostic messages of the failure taxonomy cannot
collide even when one of them embeds an arbitrary path or parser message. -/
def listPre : List Char → List Char → Bool
  | [], _ => true
  | _ :: _, [] => false
  | a :: as, b :: bs => a == b && listPre as bs

/-! ### Concrete environments used to witness the theorems -/

/-- A complete, readable dataset: the component triplet of spec scenario 1. -/
def tripletEntries : List String := ["data.shp", "data.shx", "data.dbf"]

/-- Environment of a fully valid archive: the path exists, it is a zip,
extraction yields a complete triplet, and the read finds 5 features. -/
def envOk : Env :=
  { path_exists := fun _ => true
    is_zipfile := fun _ => true
    make_tempdir := .ok "T"
    extractall := fun _ => .ok tripletEntries
    read_file := fun _ => .ok 5 }

/-- A path that does not exist. -/
def envNotFound : Env := { envOk with path_exists := fun _ => false }

/-- An existing file that is not a zip container. -/
def envNotAZip : Env := { envOk with is_zipfile := fun _ => false }

/-- An archive whose only extracted node is the geometry file: both
required siblings are missing. -/
def envShxMissing : Env := { envOk with extractall := fun _ => .ok ["data.shp"] }

/-- An archive whose dataset parses with zero features. -/
def envEmptyData : Env := { envOk with read_file := fun _ => .ok 0 }

/-- An archive whose dataset fails to parse. -/
def envUnreadable : Env := { envOk with read_file := fun _ => .raises "not a shapefile" }

/-- An archive whose extraction raises an exception other than
`zipfile.BadZipFile`. -/
def envFault : Env := { envOk with extractall := fun _ => .raises "disk full" }

/-- An archive containing two complete datasets, where the first geometry
file in traversal order fails to parse and the second would parse. -/
def envTwoShp : Env :=
  { envOk with
    extractall := fun _ => .ok ["a.shp", "a.shx", "a.dbf", "b.shp", "b.shx", "b.dbf"]
    read_file := fun q => if q = "a.shp" then .raises "bad geometry" else .ok 7 }

/-- Same as `envTwoShp` except the second (never-consulted) dataset would
parse with a different feature count. -/
def envTwoShpAlt : Env :=
  { envTwoShp with
    read_file := fun q => if q = "a.shp" then .raises "bad geometry" else .ok 9 }

/-- Same archive as `envOk`, validated through a workspace with a different
fresh name, as a second call would be. -/
def envOkAltDir : Env := { envOk with make_tempdir := .ok "U" }

/-- A complete triplet whose geometry file's extension is upper-case. -/
def envUpperShp : Env :=
  { envOk with extractall := fun _ => .ok ["data.SHP", "data.shx", "data.dbf"] }

/-- A complete triplet whose spatial-index extension is upper-case. -/
def envUpperShx : Env :=
  { envOk with extractall := fun _ => .ok ["data.shp", "data.SHX", "data.dbf"] }

/-! ### Helper lemmas about diagnostic messages -/

/-- The field `String.data` distributes over append. -/
theorem data_append (a b : String) : (a ++ b).data = a.data ++ b.data := by
  cases a
  cases b
  rfl

/-- If `l` is not a prefix of `m` then no extension of `l` equals `m`. -/
theorem listPre_false_ne {l m : List Char} (h : listPre l m = false) (t : List Char) :
    l ++ t ≠ m := by
  induction l generalizing m with
  | nil => simp [listPre] at h
  | cons a as ih =>
    cases m with
    | nil => simp
    | cons b bs =>
      simp only [listPre, Bool.and_eq_false_iff] at h
      intro hEq
      injection hEq with h1 h2
      cases h with
      | inl hab => rw [h1] at hab; simp at hab
      | inr hrest => exact ih hrest h2

/-- A string with a fixed head that is not a prefix of `b` never equals `b`,
whatever suffix is appended: the tool for separating the parametrized
diagnostic messages from the fixed ones. -/
theorem str_append_ne (a b : String) (h : listPre a.data b.data = false) (p : String) :
    a ++ p ≠ b := by
  intro hEq
  have h2 : a.data ++ p.data = b.data := by rw [← data_append, hEq]
  exact listPre_false_ne h p.data h2

/-- The returned verdict's trace is the body's trace: the outer handler
changes only the verdict component. -/
theorem trace_eq_body_trace (env : Env) (p : String) :
    (validate_zipped_shapefile env p).2 = (validate_body env p).2 := by
  unfold validate_zipped_shapefile
  rcases h : validate_body env p with ⟨res, tr⟩
  cases res <;> simp

/-- The trace of a call is either empty (the call failed before creating a
workspace) or a matched create/remove pair for one workspace directory. -/
theorem trace_shape (env : Env) (p : String) :
    traceOf env p = [] ∨
      ∃ d, env.make_tempdir = .ok d ∧
        traceOf env p = [Event.mkTempDir d, Event.rmTree d] := by
  unfold traceOf
  rw [trace_eq_body_trace]
  cases hpe : env.path_exists p with
  | false => left; simp [validate_body, hpe]
  | true =>
    cases hz : env.is_zipfile p with
    | false => left; simp [validate_body, hpe, hz]
    | true =>
      cases htd : env.make_tempdir with
      | error e => left; simp [validate_body, withTempBlock, hpe, hz, htd]
      | ok d =>
        right
        exact ⟨d, rfl, by simp [validate_body, withTempBlock, hpe, hz, htd]⟩

/-- Claim C1: the Archive Stage checks run in the fixed order
[existence, zip-container format, extraction], each terminating on failure:
a non-existing path yields the `NotFound` verdict
(`"File not found: <path>"`), an existing non-zip object yields the
`NotAZip` verdict (`"File is not a valid zip archive"`), and an input that
is not a valid zip container never yields the `CorruptArchive` verdict
(`"Corrupt zip file - cannot extract contents"`). -/
theorem archive_stage_order (env : Env) (p : String) :
    (env.path_exists p = false →
       verdictOf env p = (false, some ("File not found: " ++ p)))
  ∧ (env.path_exists p = true → env.is_zipfile p = false →
       verdictOf env p = (false, some "File is not a valid zip archive"))
  ∧ (env.is_zipfile p = false →
       (verdictOf env p).2 ≠ some "Corrupt zip file - cannot extract contents") := by
  refine ⟨?_, ?_, ?_⟩
  · intro h
    simp [verdictOf, validate_zipped_shapefile, validate_body, h]
  · intro h1 h2
    simp [verdictOf, validate_zipped_shapefile, validate_body, h1, h2]
  · intro h2
    cases hpe : env.path_exists p with
    | false =>
      simp only [verdictOf, validate_zipped_shapefile, validate_body, hpe,
        Bool.not_false, if_pos]
      simp only [ne_eq, Option.some.injEq]
      exact str_append_ne "File not found: "
        "Corrupt zip file - cannot extract contents" (by decide) p
    | true =>
      simp [verdictOf, validate_zipped_shapefile, validate_body, hpe, h2]

/-- Witness for C1 at concrete environments. -/
theorem archive_stage_order_witness :
    verdictOf envNotFound "a.zip" = (false, some ("File not found: " ++ "a.zip"))
  ∧ verdictOf envNotAZip "a.zip" = (false, some "File is not a valid zip archive")
  ∧ (verdictOf envNotAZip "a.zip").2 ≠ some "Corrupt zip file - cannot extract contents" :=
  ⟨(archive_stage_order envNotFound "a.zip").1 rfl,
   (archive_stage_order envNotAZip "a.zip").2.1 rfl rfl,
   (archive_stage_order envNotAZip "a.zip").2.2 rfl⟩

/-- Claim C6: the verdict is a boolean outcome plus, on failure, exactly
one diagnostic message: the message component is `none` exactly when the
outcome is `true`.  (The `Option String` shape of the returned pair itself
carries the "never multiple stacked causes" part: each return site carries
at most one message.) -/
theorem verdict_message_absent_iff_valid (env : Env) (p : String) :
    (verdictOf env p).1 = true ↔ (verdictOf env p).2 = none := by
  cases hpe : env.path_exists p with
  | false => simp [verdictOf, validate_zipped_shapefile, validate_body, hpe]
  | true =>
    cases hz : env.is_zipfile p with
    | false => simp [verdictOf, validate_zipped_shapefile, validate_body, hpe, hz]
    | true =>
      cases htd : env.make_tempdir with
      | error e =>
        simp [verdictOf, validate_zipped_shapefile, validate_body, withTempBlock,
          hpe, hz, htd]
      | ok d =>
        cases hx : env.extractall p with
        | badZipFile =>
          simp [verdictOf, validate_zipped_shapefile, validate_body, withTempBlock,
            datasetStage, datasetOnEntries, candidateCheck, hpe, hz, htd, hx]
        | raises m =>
          simp [verdictOf, validate_zipped_shapefile, validate_body, withTempBlock,
            datasetStage, datasetOnEntries, candidateCheck, hpe, hz, htd, hx]
        | ok entries =>
          cases hsf : shpFilesOf entries with
          | nil =>
            simp [verdictOf, validate_zipped_shapefile, validate_body, withTempBlock,
              datasetStage, datasetOnEntries, candidateCheck, hpe, hz, htd, hx, hsf]
          | cons c cs =>
            cases hmc : firstMissingComponent entries (c.dropRight 4) requiredExts with
            | some ext =>
              simp [verdictOf, validate_zipped_shapefile, validate_body, withTempBlock,
                datasetStage, datasetOnEntries, candidateCheck, hpe, hz, htd, hx, hsf, hmc]
            | none =>
              cases hrd : env.read_file c with
              | raises m =>
                simp [verdictOf, validate_zipped_shapefile, validate_body, withTempBlock,
                  datasetStage, datasetOnEntries, candidateCheck, hpe, hz, htd, hx, hsf, hmc, hrd]
              | ok n =>
                cases n with
                | zero =>
                  simp [verdictOf, validate_zipped_shapefile, validate_body, withTempBlock,
                    datasetStage, datasetOnEntries, candidateCheck, hpe, hz, htd, hx, hsf, hmc, hrd]
                | succ m =>
                  simp [verdictOf, validate_zipped_shapefile, validate_body, withTempBlock,
                    datasetStage, datasetOnEntries, candidateCheck, hpe, hz, htd, hx, hsf, hmc, hrd]

/-- Claim C7: every failure is handled locally and converted into a
returned verdict: if the body raises an exception `e` past its inner
handlers, the call still returns, with the `"Unexpected error: "`-converted
verdict; if the body returns a verdict, the call returns exactly it.
Nothing escapes to the caller. -/
theorem faults_become_verdicts (env : Env) (p : String) :
    (∀ e tr, validate_body env p = (.error e, tr) →
       validate_zipped_shapefile env p = ((false, some ("Unexpected error: " ++ e)), tr))
  ∧ (∀ v tr, validate_body env p = (.ok v, tr) →
       validate_zipped_shapefile env p = (v, tr)) := by
  constructor
  · intro e tr h
    simp [validate_zipped_shapefile, h]
  · intro v tr h
    simp [validate_zipped_shapefile, h]

/-- Witness for C7: an extraction fault (not a `BadZipFile`) is converted
into a returned verdict, after workspace cleanup. -/
theorem faults_become_verdicts_witness :
    validate_zipped_shapefile envFault "a.zip"
      = ((false, some ("Unexpected error: " ++ "disk full")),
         [Event.mkTempDir "T", Event.rmTree "T"]) :=
  (faults_become_verdicts envFault "a.zip").1 "disk full"
    [Event.mkTempDir "T", Event.rmTree "T"] rfl

/-- Claim C8: whenever a call creates the ephemeral workspace, the same
call also removes it recursively, on every exit path: the removal event for
that directory is always in the call's trace. -/
theorem workspace_always_removed (env : Env) (p d : String)
    (h : Event.mkTempDir d ∈ traceOf env p) :
    Event.rmTree d ∈ traceOf env p := by
  rcases trace_shape env p with hsh | ⟨d2, _, hsh⟩
  · rw [hsh] at h
    simp at h
  · rw [hsh] at h ⊢
    simp only [List.mem_cons, List.mem_singleton] at h ⊢
    rcases h with h | h | h
    · injection h with hd
      subst hd
      simp
    · exact absurd h (by simp)
    · exact absurd h (by simp)

/-- Witness for C8: the success-path call creates workspace `"T"` and the
trace also removes it. -/
theorem workspace_always_removed_witness :
    Event.rmTree "T" ∈ traceOf envOk "a.zip" :=
  workspace_always_removed envOk "a.zip" "T" (by decide)

/-- Claim C2: with a candidate geometry file selected, a missing required
sibling fails with a `MissingComponent` verdict naming exactly one
extension, the first missing one in the fixed order `[".shx", ".dbf"]`:
a missing spatial index is reported as `.shx` with no assumption on the
attribute table (it may be missing too), and `.dbf` is reported only when
`.shx` is present. -/
theorem missing_component_first_in_order
    (env : Env) (p d : String) (entries : List String) (c : String) (cs : List String)
    (hex : env.path_exists p = true) (hzip : env.is_zipfile p = true)
    (htd : env.make_tempdir = Except.ok d)
    (hun : env.extractall p = ExtractOutcome.ok entries)
    (hshp : shpFilesOf entries = c :: cs) :
    (entries.contains (c.dropRight 4 ++ ".shx") = false →
       verdictOf env p = (false, some "Missing required shapefile component: .shx"))
  ∧ (entries.contains (c.dropRight 4 ++ ".shx") = true →
     entries.contains (c.dropRight 4 ++ ".dbf") = false →
       verdictOf env p = (false, some "Missing required shapefile component: .dbf")) := by
  constructor
  · intro hshx
    have hshx2 : (c.dropRight 4 ++ ".shx") ∉ entries := by simpa using hshx
    simp [verdictOf, validate_zipped_shapefile, validate_body, withTempBlock,
      datasetStage, datasetOnEntries, candidateCheck, firstMissingComponent,
      requiredExts, hex, hzip, htd, hun, hshp, hshx2]
  · intro hshx hdbf
    have hshx2 : (c.dropRight 4 ++ ".shx") ∈ entries := by simpa using hshx
    have hdbf2 : (c.dropRight 4 ++ ".dbf") ∉ entries := by simpa using hdbf
    simp [verdictOf, validate_zipped_shapefile, validate_body, withTempBlock,
      datasetStage, datasetOnEntries, candidateCheck, firstMissingComponent,
      requiredExts, hex, hzip, htd, hun, hshp, hshx2, hdbf2]

/-- Witness for C2: an archive whose only extracted node is the geometry
file (both required siblings missing) is reported as missing `.shx`. -/
theorem missing_component_first_in_order_witness :
    verdictOf envShxMissing "a.zip"
      = (false, some "Missing required shapefile component: .shx") :=
  (missing_component_first_in_order envShxMissing "a.zip" "T" ["data.shp"]
    "data.shp" [] rfl rfl rfl rfl rfl).1 rfl

/-- Claim C3: a dataset that parses with zero features yields the
`EmptyDataset` verdict `"Shapefile contains no features"`, which differs
from every `UnreadableDataset` verdict `"Error reading shapefile: <cause>"`,
whatever the cause. -/
theorem empty_dataset_distinct_verdict
    (env : Env) (p d : String) (entries : List String) (c : String) (cs : List String)
    (hex : env.path_exists p = true) (hzip : env.is_zipfile p = true)
    (htd : env.make_tempdir = Except.ok d)
    (hun : env.extractall p = ExtractOutcome.ok entries)
    (hshp : shpFilesOf entries = c :: cs)
    (hmc : firstMissingComponent entries (c.dropRight 4) requiredExts = none)
    (hrd : env.read_file c = ReadOutcome.ok 0) :
    verdictOf env p = (false, some "Shapefile contains no features")
  ∧ ∀ cause, (verdictOf env p).2 ≠ some ("Error reading shapefile: " ++ cause) := by
  have hv : verdictOf env p = (false, some "Shapefile contains no features") := by
    simp [verdictOf, validate_zipped_shapefile, validate_body, withTempBlock,
      datasetStage, datasetOnEntries, candidateCheck,
      hex, hzip, htd, hun, hshp, hmc, hrd]
  refine ⟨hv, ?_⟩
  intro cause
  rw [hv]
  simp only [ne_eq, Option.some.injEq]
  intro h
  exact str_append_ne "Error reading shapefile: " "Shapefile contains no features"
    (by decide) cause h.symm

/-- Witness for C3 at a concrete zero-feature archive. -/
theorem empty_dataset_distinct_verdict_witness :
    verdictOf envEmptyData "a.zip" = (false, some "Shapefile contains no features")
  ∧ (verdictOf envEmptyData "a.zip").2 ≠ some ("Error reading shapefile: " ++ "x") :=
  ⟨(empty_dataset_distinct_verdict envEmptyData "a.zip" "T" tripletEntries
      "data.shp" [] rfl rfl rfl rfl rfl rfl rfl).1,
   (empty_dataset_distinct_verdict envEmptyData "a.zip" "T" tripletEntries
      "data.shp" [] rfl rfl rfl rfl rfl rfl rfl).2 "x"⟩

/-- Claim C4: a failing structural read yields the `UnreadableDataset`
verdict whose diagnostic is the categorizing prefix followed by the
underlying parser's message, preserved verbatim. -/
theorem unreadable_dataset_preserves_cause
    (env : Env) (p d : String) (entries : List String) (c : String) (cs : List String)
    (msg : String)
    (hex : env.path_exists p = true) (hzip : env.is_zipfile p = true)
    (htd : env.make_tempdir = Except.ok d)
    (hun : env.extractall p = ExtractOutcome.ok entries)
    (hshp : shpFilesOf entries = c :: cs)
    (hmc : firstMissingComponent entries (c.dropRight 4) requiredExts = none)
    (hrd : env.read_file c = ReadOutcome.raises msg) :
    verdictOf env p = (false, some ("Error reading shapefile: " ++ msg)) := by
  simp [verdictOf, validate_zipped_shapefile, validate_body, withTempBlock,
    datasetStage, datasetOnEntries, candidateCheck,
    hex, hzip, htd, hun, hshp, hmc, hrd]

/-- Witness for C4 at a concrete unreadable archive. -/
theorem unreadable_dataset_preserves_cause_witness :
    verdictOf envUnreadable "a.zip"
      = (false, some ("Error reading shapefile: " ++ "not a shapefile")) :=
  unreadable_dataset_preserves_cause envUnreadable "a.zip" "T" tripletEntries
    "data.shp" [] "not a shapefile" rfl rfl rfl rfl rfl rfl rfl

/-- The Dataset Stage consults the read outcome only at the first geometry
candidate in traversal order. -/
theorem datasetStage_first_candidate (env env2 : Env) (p : String)
    (entries : List String) (c : String) (cs : List String)
    (hun : env.extractall p = ExtractOutcome.ok entries)
    (hun2 : env2.extractall p = ExtractOutcome.ok entries)
    (hshp : shpFilesOf entries = c :: cs)
    (hrd : env.read_file c = env2.read_file c) :
    datasetStage env p = datasetStage env2 p := by
  unfold datasetStage
  rw [hun, hun2]
  show datasetOnEntries env entries = datasetOnEntries env2 entries
  unfold datasetOnEntries
  rw [hshp]
  show candidateCheck env entries c = candidateCheck env2 entries c
  unfold candidateCheck
  rw [hrd]

/-- Claim C5: the first geometry file in traversal order is the candidate
dataset, and the verdict is determined solely by it: altering the read
outcomes of every other file (in particular of a second `.shp` file)
changes nothing, and when the candidate's read fails the verdict is its
`UnreadableDataset` failure — no retry or fallback occurs. -/
theorem first_geometry_candidate_decides
    (env env2 : Env) (p : String)
    (entries : List String) (c : String) (cs : List String)
    (h1 : env.path_exists = env2.path_exists)
    (h2 : env.is_zipfile = env2.is_zipfile)
    (h3 : env.make_tempdir = env2.make_tempdir)
    (h4 : env.extractall = env2.extractall)
    (hun : env.extractall p = ExtractOutcome.ok entries)
    (hshp : shpFilesOf entries = c :: cs)
    (hrd : env.read_file c = env2.read_file c) :
    validate_zipped_shapefile env p = validate_zipped_shapefile env2 p
  ∧ (∀ d msg, env.path_exists p = true → env.is_zipfile p = true →
       env.make_tempdir = Except.ok d →
       firstMissingComponent entries (c.dropRight 4) requiredExts = none →
       env.read_file c = ReadOutcome.raises msg →
       verdictOf env p = (false, some ("Error reading shapefile: " ++ msg))) := by
  constructor
  · have hds := datasetStage_first_candidate env env2 p entries c cs hun
      (by rw [← h4]; exact hun) hshp hrd
    unfold validate_zipped_shapefile validate_body withTempBlock
    rw [h1, h2, h3, hds]
  · intro d msg hex hzip htd hmc hrdc
    simp [verdictOf, validate_zipped_shapefile, validate_body, withTempBlock,
      datasetStage, datasetOnEntries, candidateCheck,
      hex, hzip, htd, hun, hshp, hmc, hrdc]

/-- Witness for C5: two archives with two complete datasets each, whose
first geometry file fails to parse, get the same verdict although the
second dataset's read outcome differs; the verdict is the first
candidate's read failure. -/
theorem first_geometry_candidate_decides_witness :
    validate_zipped_shapefile envTwoShp "a.zip" = validate_zipped_shapefile envTwoShpAlt "a.zip"
  ∧ verdictOf envTwoShp "a.zip" = (false, some ("Error reading shapefile: " ++ "bad geometry")) :=
  ⟨(first_geometry_candidate_decides envTwoShp envTwoShpAlt "a.zip"
      ["a.shp", "a.shx", "a.dbf", "b.shp", "b.shx", "b.dbf"]
      "a.shp" ["b.shp"] rfl rfl rfl rfl rfl rfl rfl).1,
   (first_geometry_candidate_decides envTwoShp envTwoShpAlt "a.zip"
      ["a.shp", "a.shx", "a.dbf", "b.shp", "b.shx", "b.dbf"]
      "a.shp" ["b.shp"] rfl rfl rfl rfl rfl rfl rfl).2
     "T" "bad geometry" rfl rfl rfl rfl rfl⟩

/-- When the workspace is created successfully, the verdict depends on the
environment only through the archive checks and the dataset stage — not
through the fresh workspace name. -/
theorem verdict_formula (env : Env) (p d : String)
    (htd : env.make_tempdir = Except.ok d) :
    verdictOf env p =
      (if env.path_exists p = false then (false, some ("File not found: " ++ p))
       else if env.is_zipfile p = false then (false, some "File is not a valid zip archive")
       else match datasetStage env p with
         | .ok v => v
         | .error e => (false, some ("Unexpected error: " ++ e))) := by
  cases hpe : env.path_exists p with
  | false => simp [verdictOf, validate_zipped_shapefile, validate_body, hpe]
  | true =>
    cases hz : env.is_zipfile p with
    | false => simp [verdictOf, validate_zipped_shapefile, validate_body, hpe, hz]
    | true =>
      cases hds : datasetStage env p with
      | ok v =>
        simp [verdictOf, validate_zipped_shapefile, validate_body, withTempBlock,
          hpe, hz, htd, hds]
      | error e =>
        simp [verdictOf, validate_zipped_shapefile, validate_body, withTempBlock,
          hpe, hz, htd, hds]

/-- Claim C9: validating the same archive twice with the filesystem
unchanged between the calls yields the same verdict: the verdict is a
deterministic function of the archive-relevant environment and in
particular does not depend on the fresh workspace name, the only thing
that differs between the two calls. -/
theorem verdict_independent_of_workspace_name
    (env env2 : Env) (p d d2 : String)
    (h1 : env.path_exists = env2.path_exists)
    (h2 : env.is_zipfile = env2.is_zipfile)
    (h3 : env.extractall = env2.extractall)
    (h4 : env.read_file = env2.read_file)
    (htd : env.make_tempdir = Except.ok d)
    (htd2 : env2.make_tempdir = Except.ok d2) :
    verdictOf env p = verdictOf env2 p := by
  have hds : datasetStage env p = datasetStage env2 p := by
    unfold datasetStage datasetOnEntries candidateCheck
    rw [h3, h4]
  rw [verdict_formula env p d htd, verdict_formula env2 p d2 htd2, h1, h2, hds]

/-- Witness for C9: the same valid archive validated through workspaces
`"T"` and `"U"` gets the same verdict. -/
theorem verdict_independent_of_workspace_name_witness :
    verdictOf envOk "a.zip" = verdictOf envOkAltDir "a.zip" :=
  verdict_independent_of_workspace_name envOk envOkAltDir "a.zip" "T" "U"
    rfl rfl rfl rfl rfl rfl

/-- The geometry search matches only the literal lowercase extension: for
every stem, appending any four-character extension other than exactly
`".shp"` — in particular any case variant such as `".SHP"` — fails the
`*.shp` glob test. -/
theorem matchesShpGlob_fails_on_other_ext (stem ext : String)
    (hlen : ext.data.length = 4) (hne : ext ≠ ".shp") :
    matchesShpGlob (stem ++ ext) = false := by
  rcases hdata : ext.data with _ | ⟨a, _ | ⟨b, _ | ⟨c, _ | ⟨e, rest⟩⟩⟩⟩ <;>
    rw [hdata] at hlen <;> simp at hlen
  subst hlen
  unfold matchesShpGlob
  rw [data_append, hdata]
  rw [List.reverse_append]
  simp only [List.reverse_cons, List.reverse_nil, List.nil_append, List.cons_append,
    List.append_assoc]
  split
  · rename_i tl hmatch
    exfalso
    apply hne
    injection hmatch with h1 hmatch
    injection hmatch with h2 hmatch
    injection hmatch with h3 hmatch
    injection hmatch with h4 hmatch
    subst h1 h2 h3 h4
    cases ext with
    | mk data =>
      simp only at hdata
      rw [hdata]
  · rfl

/-- Claim C10: the search for components is case-sensitive on extensions,
for every archive.  A geometry file whose extension differs from the
literal lowercase `".shp"` in any way — any case variant, for any base
name — never matches the `*.shp` glob, so an extracted archive none of
whose nodes matches the glob gets the `NoGeometryFile` verdict; and the
sibling check tests only the exact lowercase name: a differently-cased
sibling name is a different name, so whenever the exact `base ++ ".shx"`
is absent the verdict reports `.shx` as missing, whatever case-variant
siblings are present. -/
theorem extension_match_case_sensitive
    (env : Env) (p d : String) (entries : List String)
    (hex : env.path_exists p = true) (hzip : env.is_zipfile p = true)
    (htd : env.make_tempdir = Except.ok d)
    (hun : env.extractall p = ExtractOutcome.ok entries) :
    (∀ stem ext, ext.data.length = 4 → ext ≠ ".shp" →
       matchesShpGlob (stem ++ ext) = false)
  ∧ ((∀ e ∈ entries, matchesShpGlob e = false) →
       verdictOf env p = (false, some "No .shp file found in zip archive"))
  ∧ (∀ base : String, base ++ ".SHX" ≠ base ++ ".shx")
  ∧ (∀ c cs, shpFilesOf entries = c :: cs →
       entries.contains (c.dropRight 4 ++ ".shx") = false →
       verdictOf env p = (false, some "Missing required shapefile component: .shx")) := by
  refine ⟨matchesShpGlob_fails_on_other_ext, ?_, ?_, ?_⟩
  · intro hall
    have hsf : shpFilesOf entries = [] := by
      unfold shpFilesOf
      rw [List.filter_eq_nil_iff]
      intro e he
      simp [hall e he]
    simp [verdictOf, validate_zipped_shapefile, validate_body, withTempBlock,
      datasetStage, datasetOnEntries, hex, hzip, htd, hun, hsf]
  · intro base h
    have h2 := congrArg String.data h
    rw [data_append, data_append] at h2
    have h3 := List.append_cancel_left h2
    exact absurd h3 (by decide)
  · intro c cs hshp hshx
    have hshx2 : (c.dropRight 4 ++ ".shx") ∉ entries := by simpa using hshx
    simp [verdictOf, validate_zipped_shapefile, validate_body, withTempBlock,
      datasetStage, datasetOnEntries, candidateCheck, firstMissingComponent,
      requiredExts, hex, hzip, htd, hun, hshp, hshx2]

/-- Witness for C10: the upper-case extension `".SHP"` fails the glob for
a concrete stem; the archive whose only geometry candidate is
`"data.SHP"` gets the `NoGeometryFile` verdict; the upper-case sibling
name differs from the lowercase one; and the archive carrying
`"data.SHX"` instead of `"data.shx"` is reported as missing `.shx`. -/
theorem extension_match_case_sensitive_witness :
    matchesShpGlob ("data" ++ ".SHP") = false
  ∧ verdictOf envUpperShp "a.zip" = (false, some "No .shp file found in zip archive")
  ∧ ("data" ++ ".SHX" ≠ "data" ++ ".shx")
  ∧ verdictOf envUpperShx "a.zip"
      = (false, some "Missing required shapefile component: .shx") :=
  ⟨(extension_match_case_sensitive envUpperShp "a.zip" "T"
      ["data.SHP", "data.shx", "data.dbf"] rfl rfl rfl rfl).1
      "data" ".SHP" (by decide) (by decide),
   (extension_match_case_sensitive envUpperShp "a.zip" "T"
      ["data.SHP", "data.shx", "data.dbf"] rfl rfl rfl rfl).2.1 (by decide),
   (extension_match_case_sensitive envUpperShp "a.zip" "T"
      ["data.SHP", "data.shx", "data.dbf"] rfl rfl rfl rfl).2.2.1 "data",
   (extension_match_case_sensitive envUpperShx "a.zip" "T"
      ["data.shp", "data.SHX", "data.dbf"] rfl rfl rfl rfl).2.2.2
      "data.shp" [] rfl rfl⟩

end ShapefileValidator
